import Mathlib

/-!
Verification development for the PDF-generation service in `app.py`
(a Flask API that assembles a document from three datasets, builds a
table of contents, lays the content out on pages, and stamps
"Page i of N" on every page via a custom ReportLab canvas).

The Python source is embedded shallowly: Python values appearing in the
datasets are modelled by `Item` (strings or dict-like records), ReportLab
flowables by `Block`, and the fallible parts (Python exceptions such as
`AttributeError` on `str.get`, or `KeyError` on a missing stylesheet
entry) by `Except Unit`.
-/

/-- An input record as it arrives in one of the three datasets: either a
string or a key-value (dict-like) record.  Python dicts are modelled as
association lists of string keys to string values (Python renders all
cell values through `str`, so values are kept as strings). -/
inductive Item where
  | strv (s : String)
  | dictv (kvs : List (String × String))
deriving DecidableEq, Repr

/-- Python `isinstance(x, dict)`. -/
def Item.isDict : Item → Bool
  | .dictv _ => true
  | .strv _ => false

/-- Python `str(item)` as used at `story.append(Paragraph(str(item), ...))`:
identity on strings, and the usual brace-and-quote rendering of a dict. -/
def pyStr : Item → String
  | .strv s => s
  | .dictv kvs =>
      "\x7b" ++
        String.intercalate ", "
          (kvs.map (fun p => "\x27" ++ p.1 ++ "\x27: \x27" ++ p.2 ++ "\x27")) ++
      "\x7d"

/-- Python `item.get(h, '')` followed by `str`: the value of the first
binding of `k`, or the empty string when the key is absent. -/
def dictGet (kvs : List (String × String)) (k : String) : String :=
  match kvs.find? (fun p => p.1 == k) with
  | some p => p.2
  | none => ""

/-- Python `s[:30]`-style slicing: the first `n` characters of `s`. -/
def truncTo (n : Nat) (s : String) : String := String.mk (s.data.take n)

/-- A named ReportLab `ParagraphStyle` (only the attributes the claims
can observe: the registered name and the font size). -/
structure ParaStyle where
  name : String
  fontSize : Nat
deriving DecidableEq, Repr

/-- One flowable appended to the `story` list in `generate_pdf`:
a styled paragraph, a spacer (height in mm), the `TableOfContents`
flowable, an explicit `PageBreak`, or a summary `Table` given by its
rows of cell texts. -/
inductive Block where
  | paragraph (text : String) (style : ParaStyle)
  | spacer (heightMM : Nat)
  | tocBlock
  | pageBreak
  | table (rows : List (List String))
deriving DecidableEq, Repr

/-- One index entry as recorded by `toc.addEntry(level, text, page)`. -/
structure TocEntry where
  level : Nat
  text : String
  page : Nat
deriving DecidableEq, Repr

/-- The style named `CustomTitle` registered by `setup_custom_styles`
(fontSize 24). -/
def customTitleStyle : ParaStyle := ⟨"CustomTitle", 24⟩

/-- The style named `SectionTitle` registered by `setup_custom_styles`
(fontSize 18). -/
def sectionTitleStyle : ParaStyle := ⟨"SectionTitle", 18⟩

/-- The style named `SubSectionTitle` registered by `setup_custom_styles`
(fontSize 14). -/
def subSectionTitleStyle : ParaStyle := ⟨"SubSectionTitle", 14⟩

/-- The style named `CustomBody` registered by `setup_custom_styles`
(fontSize 11). -/
def customBodyStyle : ParaStyle := ⟨"CustomBody", 11⟩

/-- Modelled from the spec: ReportLab's `getSampleStyleSheet()` (the
layout library is not part of src/); the built-in styles the code's
`setup_custom_styles` relies on as parents and lookups. -/
def getSampleStyleSheet : List ParaStyle :=
  [⟨"Normal", 10⟩, ⟨"BodyText", 10⟩, ⟨"Italic", 10⟩,
   ⟨"Heading1", 18⟩, ⟨"Title", 18⟩, ⟨"Heading2", 14⟩, ⟨"Heading3", 12⟩]

/-- The `styles.add(...)` calls of `setup_custom_styles`: the four custom
styles are appended to the sample stylesheet. -/
def setup_custom_styles (styles : List ParaStyle) : List ParaStyle :=
  styles ++ [customTitleStyle, sectionTitleStyle, subSectionTitleStyle, customBodyStyle]

/-- The `PDFGenerator` class: its only instance attribute is `styles`. -/
structure PDFGenerator where
  styles : List ParaStyle
deriving DecidableEq, Repr

/-- `PDFGenerator.__init__`: build the sample stylesheet and register the
custom styles. -/
def PDFGenerator.mkNew : PDFGenerator := ⟨setup_custom_styles getSampleStyleSheet⟩

/-- A `self.styles['Name']` lookup; a missing name is Python's `KeyError`,
modelled as `Except.error`. -/
def PDFGenerator.getStyle (g : PDFGenerator) (name : String) : Except Unit ParaStyle :=
  match g.styles.find? (fun s => s.name == name) with
  | some s => .ok s
  | none => .error ()

/-- List enumeration starting at `k`, as in Python `enumerate(xs, k)`. -/
def enumF : Nat → List α → List (Nat × α)
  | _, [] => []
  | k, a :: as => (k, a) :: enumF (k + 1) as

/-- The heading text `f"1.2.{i} Item {i}"` used inside the per-item loops,
with `pref` the numbering prefix (e.g. `"1.2."`) and `name` the item word
(`"Item"`, `"Record"` or `"Element"`). -/
def sectionItemTitle (pref name : String) (i : Nat) : String :=
  pref ++ (toString i ++ " " ++ name ++ " " ++ toString i)

/-- The blocks appended by one iteration of a per-item loop in
`generate_pdf`: the subsection heading, the item's body paragraph, and a
0.3 cm spacer. -/
def itemTriple (pref name : String) (body sub : ParaStyle) (p : Nat × Item) : List Block :=
  [.paragraph (sectionItemTitle pref name p.1) sub,
   .paragraph (pyStr p.2) body,
   .spacer 3]

/-- The blocks appended by a whole per-item loop
(`for i, item in enumerate(dataset[:5], 1): ...`). -/
def itemBlocks (pref name : String) (body sub : ParaStyle) (ds : List Item) : List Block :=
  (enumF 1 (ds.take 5)).flatMap (itemTriple pref name body sub)

/-- The `toc.addEntry(2, f"1.2.{i} Item {i}", doc.page)` calls of a
per-item loop; `dp` is the value of `doc.page` at assembly time. -/
def itemEntries (pref name : String) (dp : Nat) (ds : List Item) : List TocEntry :=
  (enumF 1 (ds.take 5)).map (fun p => ⟨2, sectionItemTitle pref name p.1, dp⟩)

/-- The Python truthiness test `dataset1 and isinstance(dataset1[0], dict)`. -/
def headIsDict : List Item → Bool
  | .dictv _ :: _ => true
  | _ => false

/-- One row of the summary table,
`[str(item.get(h, ''))[:30] for h in headers]`: the comprehension touches
`item` once per header, so an empty header list raises nothing even for a
non-dict item, while a non-empty one raises `AttributeError` on a
non-dict (`Except.error`). -/
def rowOf (headers : List String) (it : Item) : Except Unit (List String) :=
  match headers with
  | [] => .ok []
  | _ :: _ =>
      match it with
      | .dictv kvs => .ok (headers.map (fun h => truncTo 30 (dictGet kvs h)))
      | .strv _ => .error ()

/-- The `for item in data[:5]` row-building loop of `create_summary_table`
(its caller already applies the `[:5]` slice to the argument); the first
raising row aborts the whole call. -/
def buildRows (headers : List String) : List Item → Except Unit (List (List String))
  | [] => .ok []
  | it :: rest =>
      match rowOf headers it with
      | .error e => .error e
      | .ok r =>
          match buildRows headers rest with
          | .error e => .error e
          | .ok rs => .ok (r :: rs)

/-- `PDFGenerator.create_summary_table(data)`: `Spacer(1, 0)` when the
data is empty or does not start with a dict; otherwise a table whose
header row is the first record's keys capped at 3, over rows built from
the first 5 records. -/
def create_summary_table (data : List Item) : Except Unit Block :=
  match data with
  | [] => .ok (.spacer 0)
  | .strv _ :: _ => .ok (.spacer 0)
  | .dictv kvs :: _ =>
      let headers := (kvs.map Prod.fst).take 3
      (buildRows headers (data.take 5)).map (fun rows => .table (headers :: rows))

/-- The conditional `1.3 Summary Table` part of section 1: present only
when `dataset1 and isinstance(dataset1[0], dict)` holds, in which case
the subsection heading, its index entry and the table built from
`dataset1[:5]` are appended. -/
def summaryPart (sub : ParaStyle) (dp : Nat) (d1 : List Item) :
    Except Unit (List Block × List TocEntry) :=
  if headIsDict d1 then
    (create_summary_table (d1.take 5)).map (fun tbl =>
      ([Block.paragraph "1.3 Summary Table" sub, tbl],
       [TocEntry.mk 1 "1.3 Summary Table" dp]))
  else .ok ([], [])

/-- The `stats_text` f-string of section 4.1 (whitespace normalised). -/
def statsText (d1 d2 d3 : List Item) : String :=
  "Total records processed: - Dataset 1: " ++ toString d1.length ++
  " records - Dataset 2: " ++ toString d2.length ++
  " records - Dataset 3: " ++ toString d3.length ++
  " records - Grand total: " ++ toString (d1.length + d2.length + d3.length) ++ " records"

/-- The `story` list assembled by `PDFGenerator.generate_pdf`, in source
order; `sumBlocks` is the (possibly empty) `1.3 Summary Table` part. -/
def storyShape (ct st sub body : ParaStyle) (sumBlocks : List Block)
    (d1 d2 d3 : List Item) : List Block :=
  [Block.paragraph "Proof of Concept Document" ct, .spacer 10,
   .paragraph "Table of Contents" st, .spacer 5, .tocBlock, .pageBreak,
   .paragraph "1. First Data Set" st, .spacer 5,
   .paragraph "1.1 Overview" sub]
  ++ [Block.paragraph ("This is the first data set received by the API. It contains "
        ++ toString d1.length ++ " records.") body]
  ++ itemBlocks "1.2." "Item" body sub d1
  ++ sumBlocks
  ++ [Block.pageBreak,
      .paragraph "2. Second Data Set" st, .spacer 5,
      .paragraph "2.1 Data Analysis" sub]
  ++ [Block.paragraph ("The second set contains " ++ toString d2.length
        ++ " elements for analysis.") body]
  ++ itemBlocks "2.2." "Record" body sub d2
  ++ [Block.pageBreak,
      .paragraph "3. Third Data Set" st, .spacer 5,
      .paragraph "3.1 Additional Information" sub]
  ++ [Block.paragraph ("This final set has " ++ toString d3.length
        ++ " processed items.") body]
  ++ itemBlocks "3.2." "Element" body sub d3
  ++ [Block.pageBreak,
      .paragraph "4. Conclusion" st, .spacer 5,
      .paragraph ("This document was automatically generated through the API developed "
        ++ "for the PoC. The index above contains clickable links that direct to the "
        ++ "corresponding sections.") body,
      .paragraph "4.1 Statistics" sub,
      .paragraph (statsText d1 d2 d3) body]

/-- The sequence of `toc.addEntry` registrations performed by
`PDFGenerator.generate_pdf`, in source order; `sumEntries` is the
(possibly empty) `1.3 Summary Table` entry and `dp` the `doc.page`
value every call reads. -/
def entriesShape (dp : Nat) (sumEntries : List TocEntry)
    (d1 d2 d3 : List Item) : List TocEntry :=
  [TocEntry.mk 0 "1. First Data Set" dp, .mk 1 "1.1 Overview" dp]
  ++ itemEntries "1.2." "Item" dp d1
  ++ sumEntries
  ++ [TocEntry.mk 0 "2. Second Data Set" dp, .mk 1 "2.1 Data Analysis" dp]
  ++ itemEntries "2.2." "Record" dp d2
  ++ [TocEntry.mk 0 "3. Third Data Set" dp, .mk 1 "3.1 Additional Information" dp]
  ++ itemEntries "3.2." "Element" dp d3
  ++ [TocEntry.mk 0 "4. Conclusion" dp, .mk 1 "4.1 Statistics" dp]

/-- The body of `PDFGenerator.generate_pdf` up to the `multiBuild` call:
the `story` list and the list of `toc.addEntry` registrations, in source
order.  `ct`, `st`, `sub`, `body` are the looked-up styles and `dp` is
the value of the document's `page` attribute during assembly (every
`addEntry` call passes the same `doc.page`, read before any build pass). -/
def buildDocumentParts (ct st sub body : ParaStyle) (dp : Nat)
    (d1 d2 d3 : List Item) : Except Unit (List Block × List TocEntry) :=
  (summaryPart sub dp d1).map (fun summary =>
    (storyShape ct st sub body summary.1 d1 d2 d3,
     entriesShape dp summary.2 d1 d2 d3))

/-- Modelled from the spec: the Pagination Engine (ReportLab's platypus
layout, not part of src/) consumes the block sequence and emits pages;
"Page breaks are explicit (PageBreak block) or implicit (content
overflow)".  This document separates all its sections with explicit
`PageBreak` blocks, and no settled claim depends on overflow, so only
explicit breaks are modelled: `splitPages` splits the story at each
`PageBreak`, accumulating the current page in reverse. -/
def splitPages : List Block → List Block → List (List Block)
  | [], cur => [cur.reverse]
  | .pageBreak :: rest, cur => cur.reverse :: splitPages rest []
  | b :: rest, cur => splitPages rest (b :: cur)

/-- Lay the story out onto physical pages (1-based in all statements). -/
def layoutPages (blocks : List Block) : List (List Block) :=
  splitPages blocks []

/-- Whether a laid-out page carries a paragraph with exactly this text. -/
def pageHasText (t : String) (pg : List Block) : Bool :=
  pg.any (fun b =>
    match b with
    | .paragraph s _ => s == t
    | _ => false)

/-- The 1-based physical page on which the paragraph with text `t` first
appears, if any. -/
def pageOfHeading (pages : List (List Block)) (t : String) : Option Nat :=
  (enumF 1 pages).findSome? (fun p => if pageHasText t p.2 then some p.1 else none)

/-- One operation recorded on a canvas page: a laid-out content block, or
a raw text draw such as the page-number stamp. -/
inductive PageOp where
  | content (b : Block)
  | text (s : String)
deriving DecidableEq, Repr

/-- The literal page-number stamp
`f"Page {self._pageNumber} of {page_count}"` drawn by
`NumberedCanvas.draw_page_number`. -/
def stampText (i n : Nat) : String :=
  "Page " ++ toString i ++ " of " ++ toString n

/-- The state of a `NumberedCanvas`: the library's 1-based `_pageNumber`
counter for the page currently being drawn, the operations drawn on that
page so far, and the `_saved_page_states` snapshots taken by the
overridden `showPage`.  (Modelled from the spec: the ReportLab `Canvas`
base class is not part of src/; `_startPage` advances `_pageNumber` and
begins a fresh page.) -/
structure NCanvas where
  pageNumber : Nat
  curOps : List PageOp
  savedStates : List (Nat × List PageOp)
deriving DecidableEq, Repr

/-- A fresh canvas, about to draw physical page 1. -/
def NCanvas.start : NCanvas := ⟨1, [], []⟩

/-- Drawing one page's worth of content operations on the canvas. -/
def NCanvas.drawPage (c : NCanvas) (ops : List PageOp) : NCanvas :=
  { c with curOps := c.curOps ++ ops }

/-- `NumberedCanvas.showPage`: snapshot the current state (its page
number and drawn operations) into `_saved_page_states`, then
`_startPage` for the next page. -/
def NCanvas.showPage (c : NCanvas) : NCanvas :=
  { pageNumber := c.pageNumber + 1, curOps := [],
    savedStates := c.savedStates ++ [(c.pageNumber, c.curOps)] }

/-- `NumberedCanvas.save`: replay every saved page state, draw the
`"Page i of N"` stamp on it (with `N` the number of saved states), and
commit it. -/
def NCanvas.save (c : NCanvas) : List (List PageOp) :=
  c.savedStates.map (fun s => s.2 ++ [PageOp.text (stampText s.1 c.savedStates.length)])

/-- Run the layout's pages through the canvas: each page's operations are
drawn and `showPage` is called, exactly as the build loop does. -/
def runPages (c : NCanvas) : List (List PageOp) → NCanvas
  | [] => c
  | pg :: rest => runPages ((c.drawPage pg).showPage) rest

/-- The final rendered page sequence: draw every laid-out page on a fresh
`NumberedCanvas`, then `save` stamps the page numbers. -/
def renderPages (pages : List (List PageOp)) : List (List PageOp) :=
  (runPages NCanvas.start pages).save

/-- The produced document: the assembled story, the recorded index
entries, and the final rendered (stamped) pages. -/
structure Document where
  story : List Block
  entries : List TocEntry
  pages : List (List PageOp)
deriving DecidableEq, Repr

/-- Modelled from the spec: the `page` attribute of a freshly constructed
`SimpleDocTemplate` (the layout library is not part of src/) before any
build pass has run; ReportLab initialises it to 0.  All `toc.addEntry`
calls in `generate_pdf` read `doc.page` at story-assembly time, i.e.
before `doc.multiBuild` runs. -/
def docPageInit : Nat := 0

/-- The document produced by `PDFGenerator.generate_pdf` for the given
datasets: look up the four custom styles, assemble the story and index
entries, lay the story out, and stamp the pages with the
`NumberedCanvas`. -/
def PDFGenerator.buildDocument (g : PDFGenerator) (d1 d2 d3 : List Item) :
    Except Unit Document := do
  let ct ← g.getStyle "CustomTitle"
  let st ← g.getStyle "SectionTitle"
  let sub ← g.getStyle "SubSectionTitle"
  let body ← g.getStyle "CustomBody"
  let parts ← buildDocumentParts ct st sub body docPageInit d1 d2 d3
  pure { story := parts.1, entries := parts.2,
         pages := renderPages ((layoutPages parts.1).map (List.map PageOp.content)) }

/-- `PDFGenerator.generate_pdf(self, dataset1, dataset2, dataset3,
filename)`: embedded in state-passing style (the returned generator is
the method's `self` after the call; the method assigns no instance
attribute).  On success the source returns `filename`. -/
def PDFGenerator.generate_pdf (g : PDFGenerator) (d1 d2 d3 : List Item)
    (filename : String) : PDFGenerator × Except Unit (Document × String) :=
  (g, (g.buildDocument d1 d2 d3).map (fun doc => (doc, filename)))

/-- The module-level shared instance `pdf_gen = PDFGenerator()`. -/
def pdf_gen : PDFGenerator := PDFGenerator.mkNew

/-- The parsed JSON body of a `POST /api/generate-pdf` request: the three
optional dataset fields, plus whether the JSON object carried any other
keys (which only matters for the `if not data` truthiness test). -/
structure ApiRequest where
  dataset1 : Option (List Item)
  dataset2 : Option (List Item)
  dataset3 : Option (List Item)
  extraKeys : Bool
deriving DecidableEq, Repr

/-- Python `not data` on the parsed JSON object: true exactly when the
dict is empty. -/
def ApiRequest.isEmptyJson (r : ApiRequest) : Bool :=
  r.dataset1.isNone && r.dataset2.isNone && r.dataset3.isNone && !r.extraKeys

/-- The HTTP response of the endpoint: a PDF attachment (200), a client
error with its message (400), or a generic internal error (500, whose
message `str(e)` is not modelled). -/
inductive ApiResponse where
  | pdfFile (filename : String) (doc : Document)
  | clientError (msg : String)
  | serverError
deriving DecidableEq, Repr

/-- The `generate_pdf_api` view function: `now` is the
`datetime.now().strftime(...)` timestamp (it only reaches the generated
filename), and `body` is the parsed JSON body (`none` for a null body). -/
def generate_pdf_api (now : String) (body : Option ApiRequest) : ApiResponse :=
  match body with
  | none => .clientError "No data provided"
  | some data =>
      if data.isEmptyJson then .clientError "No data provided"
      else
        let dataset1 := data.dataset1.getD []
        let dataset2 := data.dataset2.getD []
        let dataset3 := data.dataset3.getD []
        if dataset1.isEmpty && dataset2.isEmpty && dataset3.isEmpty then
          .clientError "At least one data set must be provided"
        else
          let filename := "poc_document_" ++ now ++ ".pdf"
          match (pdf_gen.generate_pdf dataset1 dataset2 dataset3 filename).2 with
          | .ok (doc, fn) => .pdfFile fn doc
          | .error _ => .serverError

/-- Character-list comparison: does `p` occur at the start of `t`? -/
def hasPref : List Char → List Char → Bool
  | [], _ => true
  | _ :: _, [] => false
  | a :: as, b :: bs => a == b && hasPref as bs

/-- Whether a block is one of the per-item subsection headings of the
section numbered by `pref` (e.g. `"1.2."`): a paragraph in the
`SubSectionTitle` style whose text starts with that numbering prefix. -/
def isItemHead (pref : String) (b : Block) : Bool :=
  match b with
  | .paragraph t s => s == subSectionTitleStyle && hasPref pref.data t.data
  | _ => false

/-- The number of per-item subsection headings (for the given numbering
prefix) in a block sequence. -/
def countItems (pref : String) (story : List Block) : Nat :=
  (story.filter (isItemHead pref)).length

/-- Whether a block is a summary table. -/
def isTable : Block → Bool
  | .table _ => true
  | _ => false

/-- The story component of an assembly result (empty on error). -/
def partsStory (r : Except Unit (List Block × List TocEntry)) : List Block :=
  match r with
  | .ok p => p.1
  | .error _ => []

/-- The index-entry component of an assembly result (empty on error). -/
def partsEntries (r : Except Unit (List Block × List TocEntry)) : List TocEntry :=
  match r with
  | .ok p => p.2
  | .error _ => []

/-- The story of a `generate_pdf` result (empty on error). -/
def storyOf (r : Except Unit (Document × String)) : List Block :=
  match r with
  | .ok p => p.1.story
  | .error _ => []

/-- Whether a response is a 400 client error. -/
def is400 : ApiResponse → Bool
  | .clientError _ => true
  | _ => false

/-- The effective datasets a request body denotes, mirroring
`data.get('datasetK', [])` (a missing body yields three empty lists). -/
def effDatasets (body : Option ApiRequest) : List Item × List Item × List Item :=
  match body with
  | none => ([], [], [])
  | some data => (data.dataset1.getD [], data.dataset2.getD [], data.dataset3.getD [])

/-- Erase the (timestamp-bearing) filename from a response, leaving the
layout-determined content. -/
def stripFilename : ApiResponse → ApiResponse
  | .pdfFile _ doc => .pdfFile "" doc
  | r => r

/-- The physical page count of the PDF carried by a response, if any. -/
def pageCountOf : ApiResponse → Option Nat
  | .pdfFile _ doc => some doc.pages.length
  | _ => none

/-- The index entries of the PDF carried by a response, if any. -/
def entriesOf : ApiResponse → Option (List TocEntry)
  | .pdfFile _ doc => some doc.entries
  | _ => none

/-- A `dataset1` on which the summary-table construction cannot raise:
either its first element is not a dict, or all of its first five
elements are dicts. -/
def tableSafe (ds : List Item) : Bool :=
  !headIsDict ds || (ds.take 5).all Item.isDict

/-- The request body `{"dataset1": ds}`. -/
def bodyWith1 (ds : List Item) : Option ApiRequest := some ⟨some ds, none, none, false⟩

/-- The request body `{"dataset2": ds}`. -/
def bodyWith2 (ds : List Item) : Option ApiRequest := some ⟨none, some ds, none, false⟩

/-- The request body `{"dataset3": ds}`. -/
def bodyWith3 (ds : List Item) : Option ApiRequest := some ⟨none, none, some ds, false⟩

/-- The assembly result for the concrete three-string input used to
exhibit the index-target-page defect, as a function of the `doc.page`
value `dp` the `addEntry` calls observe. -/
def c1Parts (dp : Nat) : Except Unit (List Block × List TocEntry) :=
  buildDocumentParts customTitleStyle sectionTitleStyle subSectionTitleStyle
    customBodyStyle dp [Item.strv "a"] [Item.strv "b"] [Item.strv "c"]

/-- The number of summary tables in a block sequence. -/
def countTables (story : List Block) : Nat :=
  (story.filter isTable).length

/-- Whether the two strings are non-empty and differ already in their
first character (so neither is a starting segment of anything beginning
with the other). -/
def headCharNe (p q : String) : Bool :=
  match p.data, q.data with
  | a :: _, b :: _ => !(a == b)
  | _, _ => false

/-- The document generated for the concrete input of the dataset-1-gating
witness: dataset1 starts with a non-dict, a later element is a dict. -/
def c10Doc : Document :=
  match (pdf_gen.generate_pdf [Item.strv "s", Item.dictv [("a", "1")]] [] [] "f").2 with
  | .ok p => p.1
  | .error _ => ⟨[], [], []⟩

/-- The document generated for the concrete input of the truncation
witness: six items in dataset1. -/
def c4Doc : Document :=
  match (pdf_gen.generate_pdf
      [Item.strv "i1", Item.strv "i2", Item.strv "i3", Item.strv "i4",
       Item.strv "i5", Item.strv "i6"] [] [Item.strv "z"] "f").2 with
  | .ok p => p.1
  | .error _ => ⟨[], [], []⟩

/-- The document generated for the concrete input of the summary-table
witness: dataset1 is a single dict record. -/
def c2Doc : Document :=
  match (pdf_gen.generate_pdf [Item.dictv [("a", "1")]] [] [] "f").2 with
  | .ok p => p.1
  | .error _ => ⟨[], [], []⟩

theorem strData_append (s t : String) : (s ++ t).data = s.data ++ t.data := rfl

theorem hasPref_self_append (xs ys : List Char) : hasPref xs (xs ++ ys) = true := by
  induction xs with
  | nil => rfl
  | cons a as ih => simp [hasPref, ih]

theorem hasPref_append_headCharNe (p q : String) (r : List Char)
    (h : headCharNe p q = true) : hasPref p.data (q.data ++ r) = false := by
  rcases hp : p.data with _ | ⟨a, as⟩ <;> rcases hq : q.data with _ | ⟨b, bs⟩ <;>
    simp [headCharNe, hp, hq] at h
  have hab : (a == b) = false := by simpa using h
  simp [hasPref, hab]

@[simp] theorem countItems_nil (p : String) : countItems p [] = 0 := rfl

@[simp] theorem countItems_append (p : String) (a b : List Block) :
    countItems p (a ++ b) = countItems p a + countItems p b := by
  simp [countItems, List.filter_append]

@[simp] theorem countItems_cons (p : String) (b : Block) (l : List Block) :
    countItems p (b :: l) = (if isItemHead p b then 1 else 0) + countItems p l := by
  by_cases h : isItemHead p b <;> simp [countItems, List.filter_cons, h, Nat.add_comm]

@[simp] theorem isItemHead_spacer (p : String) (h : Nat) :
    isItemHead p (.spacer h) = false := rfl

@[simp] theorem isItemHead_toc (p : String) : isItemHead p .tocBlock = false := rfl

@[simp] theorem isItemHead_pb (p : String) : isItemHead p .pageBreak = false := rfl

@[simp] theorem isItemHead_table (p : String) (r : List (List String)) :
    isItemHead p (.table r) = false := rfl

@[simp] theorem isItemHead_bodyStyle (p t : String) :
    isItemHead p (.paragraph t customBodyStyle) = false := rfl

@[simp] theorem isItemHead_sectionStyle (p t : String) :
    isItemHead p (.paragraph t sectionTitleStyle) = false := rfl

@[simp] theorem isItemHead_titleStyle (p t : String) :
    isItemHead p (.paragraph t customTitleStyle) = false := rfl

@[simp] theorem countTables_nil : countTables [] = 0 := rfl

@[simp] theorem countTables_append (a b : List Block) :
    countTables (a ++ b) = countTables a + countTables b := by
  simp [countTables, List.filter_append]

@[simp] theorem countTables_cons (b : Block) (l : List Block) :
    countTables (b :: l) = (if isTable b then 1 else 0) + countTables l := by
  by_cases h : isTable b <;> simp [countTables, List.filter_cons, h, Nat.add_comm]

@[simp] theorem isTable_paragraph (t : String) (s : ParaStyle) :
    isTable (.paragraph t s) = false := rfl

@[simp] theorem isTable_spacer (h : Nat) : isTable (.spacer h) = false := rfl

@[simp] theorem isTable_toc : isTable .tocBlock = false := rfl

@[simp] theorem isTable_pb : isTable .pageBreak = false := rfl

@[simp] theorem isTable_table (r : List (List String)) : isTable (.table r) = true := rfl

theorem isItemHead_selfTitle (p n : String) (k : Nat) :
    isItemHead p (.paragraph (sectionItemTitle p n k) subSectionTitleStyle) = true := by
  simp [isItemHead, sectionItemTitle, hasPref_self_append]

theorem isItemHead_otherTitle (p q n : String) (k : Nat) (h : headCharNe p q = true) :
    isItemHead p (.paragraph (sectionItemTitle q n k) subSectionTitleStyle) = false := by
  simp [isItemHead, sectionItemTitle, hasPref_append_headCharNe, h]

theorem countItems_flatMap_self (p n : String) (m : List Item) (k : Nat) :
    countItems p ((enumF k m).flatMap
      (itemTriple p n customBodyStyle subSectionTitleStyle)) = m.length := by
  induction m generalizing k with
  | nil => rfl
  | cons a as ih =>
      simp [enumF, itemTriple, isItemHead_selfTitle, ih]
      omega

theorem countItems_itemBlocks_self (p n : String) (l : List Item) :
    countItems p (itemBlocks p n customBodyStyle subSectionTitleStyle l) = min 5 l.length := by
  rw [itemBlocks, countItems_flatMap_self, List.length_take]

theorem countItems_flatMap_other (p q n : String) (m : List Item) (k : Nat)
    (h : headCharNe p q = true) :
    countItems p ((enumF k m).flatMap
      (itemTriple q n customBodyStyle subSectionTitleStyle)) = 0 := by
  induction m generalizing k with
  | nil => rfl
  | cons a as ih => simp [enumF, itemTriple, isItemHead_otherTitle p q n _ h, ih]

theorem countItems_itemBlocks_other (p q n : String) (l : List Item)
    (h : headCharNe p q = true) :
    countItems p (itemBlocks q n customBodyStyle subSectionTitleStyle l) = 0 := by
  rw [itemBlocks, countItems_flatMap_other p q n _ _ h]

theorem countTables_flatMap (q n : String) (body sub : ParaStyle) (m : List Item) (k : Nat) :
    countTables ((enumF k m).flatMap (itemTriple q n body sub)) = 0 := by
  induction m generalizing k with
  | nil => rfl
  | cons a as ih => simp [enumF, itemTriple, ih]

theorem countTables_itemBlocks (q n : String) (body sub : ParaStyle) (l : List Item) :
    countTables (itemBlocks q n body sub l) = 0 := by
  rw [itemBlocks, countTables_flatMap]

@[simp] theorem iih_12_ov : isItemHead "1.2." (.paragraph "1.1 Overview" subSectionTitleStyle) = false := by decide

@[simp] theorem iih_12_da : isItemHead "1.2." (.paragraph "2.1 Data Analysis" subSectionTitleStyle) = false := by decide

@[simp] theorem iih_12_ai : isItemHead "1.2." (.paragraph "3.1 Additional Information" subSectionTitleStyle) = false := by decide

@[simp] theorem iih_12_st : isItemHead "1.2." (.paragraph "4.1 Statistics" subSectionTitleStyle) = false := by decide

@[simp] theorem iih_12_su : isItemHead "1.2." (.paragraph "1.3 Summary Table" subSectionTitleStyle) = false := by decide

@[simp] theorem iih_22_ov : isItemHead "2.2." (.paragraph "1.1 Overview" subSectionTitleStyle) = false := by decide

@[simp] theorem iih_22_da : isItemHead "2.2." (.paragraph "2.1 Data Analysis" subSectionTitleStyle) = false := by decide

@[simp] theorem iih_22_ai : isItemHead "2.2." (.paragraph "3.1 Additional Information" subSectionTitleStyle) = false := by decide

@[simp] theorem iih_22_st : isItemHead "2.2." (.paragraph "4.1 Statistics" subSectionTitleStyle) = false := by decide

@[simp] theorem iih_22_su : isItemHead "2.2." (.paragraph "1.3 Summary Table" subSectionTitleStyle) = false := by decide

@[simp] theorem iih_32_ov : isItemHead "3.2." (.paragraph "1.1 Overview" subSectionTitleStyle) = false := by decide

@[simp] theorem iih_32_da : isItemHead "3.2." (.paragraph "2.1 Data Analysis" subSectionTitleStyle) = false := by decide

@[simp] theorem iih_32_ai : isItemHead "3.2." (.paragraph "3.1 Additional Information" subSectionTitleStyle) = false := by decide

@[simp] theorem iih_32_st : isItemHead "3.2." (.paragraph "4.1 Statistics" subSectionTitleStyle) = false := by decide

@[simp] theorem iih_32_su : isItemHead "3.2." (.paragraph "1.3 Summary Table" subSectionTitleStyle) = false := by decide

theorem truncTo_length_le (n : Nat) (s : String) : (truncTo n s).length ≤ n := by
  have he : (truncTo n s).length = (s.data.take n).length := rfl
  rw [he]
  exact List.length_take_le _ _

theorem rowOf_dictv (headers : List String) (kvs : List (String × String)) :
    rowOf headers (Item.dictv kvs) =
      .ok (headers.map (fun hk => truncTo 30 (dictGet kvs hk))) := by
  cases headers <;> rfl

theorem rowOf_ok_spec (headers : List String) (it : Item) (r : List String)
    (h : rowOf headers it = .ok r) :
    r.length = headers.length ∧ ∀ c ∈ r, c.length ≤ 30 := by
  cases headers with
  | nil =>
      simp [rowOf] at h
      subst h
      simp
  | cons h1 hs =>
      cases it with
      | strv s => simp [rowOf] at h
      | dictv kvs =>
          rw [rowOf_dictv] at h
          injection h with h2
          subst h2
          refine ⟨by simp, ?_⟩
          intro c hc
          rw [List.mem_map] at hc
          obtain ⟨a, _, rfl⟩ := hc
          exact truncTo_length_le 30 _

theorem buildRows_ok_spec (headers : List String) (l : List Item)
    (rs : List (List String)) (h : buildRows headers l = .ok rs) :
    rs.length = l.length ∧ ∀ r ∈ rs, r.length = headers.length ∧ ∀ c ∈ r, c.length ≤ 30 := by
  induction l generalizing rs with
  | nil =>
      simp [buildRows] at h
      subst h
      simp
  | cons it rest ih =>
      simp only [buildRows] at h
      rcases hr : rowOf headers it with e | r <;> rw [hr] at h
      · exact absurd h (by simp)
      · rcases hb : buildRows headers rest with e | rs' <;> rw [hb] at h
        · exact absurd h (by simp)
        · injection h with h2
          subst h2
          obtain ⟨hl, hrows⟩ := ih rs' hb
          obtain ⟨hr1, hr2⟩ := rowOf_ok_spec headers it r hr
          refine ⟨by simp [hl], ?_⟩
          intro x hx
          rcases List.mem_cons.mp hx with hx2 | hx2
          · exact hx2 ▸ ⟨hr1, hr2⟩
          · exact hrows x hx2

theorem buildRows_ok_of_all_dicts (headers : List String) (l : List Item)
    (h : l.all Item.isDict = true) : ∃ rs, buildRows headers l = .ok rs := by
  induction l with
  | nil => exact ⟨[], rfl⟩
  | cons it rest ih =>
      simp [List.all_cons] at h
      obtain ⟨rs, hrs⟩ := ih (by simp [List.all_eq_true]; exact fun x hx => h.2 x hx)
      cases it with
      | strv s => simp [Item.isDict] at h
      | dictv kvs =>
          refine ⟨(headers.map (fun hk => truncTo 30 (dictGet kvs hk))) :: rs, ?_⟩
          simp only [buildRows, rowOf_dictv, hrs]

theorem headIsDict_iff (d1 : List Item) :
    headIsDict d1 = true ↔ ∃ kvs t, d1 = Item.dictv kvs :: t := by
  cases d1 with
  | nil => simp [headIsDict]
  | cons it t => cases it <;> simp [headIsDict]

theorem create_summary_table_dictv (kvs : List (String × String)) (l : List Item) :
    create_summary_table (Item.dictv kvs :: l) =
      (buildRows ((kvs.map Prod.fst).take 3) ((Item.dictv kvs :: l).take 5)).map
        (fun rows => Block.table (((kvs.map Prod.fst).take 3) :: rows)) := rfl

theorem create_summary_table_ok_table (kvs : List (String × String)) (l : List Item)
    (b : Block) (h : create_summary_table (Item.dictv kvs :: l) = .ok b) :
    ∃ rows, b = Block.table (((kvs.map Prod.fst).take 3) :: rows) ∧
      buildRows ((kvs.map Prod.fst).take 3) ((Item.dictv kvs :: l).take 5) = .ok rows := by
  rw [create_summary_table_dictv] at h
  rcases hb : buildRows ((kvs.map Prod.fst).take 3) ((Item.dictv kvs :: l).take 5)
      with e | rows <;> rw [hb] at h
  · exact absurd h (by simp [Except.map])
  · simp [Except.map] at h
    exact ⟨rows, h.symm, rfl⟩

theorem summaryPart_false (sub : ParaStyle) (dp : Nat) (d1 : List Item)
    (h : headIsDict d1 = false) : summaryPart sub dp d1 = .ok ([], []) := by
  simp [summaryPart, h]

theorem summaryPart_ok_spec (dp : Nat) (d1 : List Item) (sp : List Block × List TocEntry)
    (h : summaryPart subSectionTitleStyle dp d1 = .ok sp) :
    countItems "1.2." sp.1 = 0 ∧ countItems "2.2." sp.1 = 0 ∧ countItems "3.2." sp.1 = 0 ∧
    countTables sp.1 = (if headIsDict d1 then 1 else 0) ∧
    (∀ rows, Block.table rows ∈ sp.1 →
      create_summary_table (d1.take 5) = .ok (.table rows)) := by
  by_cases hd : headIsDict d1 = true
  · obtain ⟨kvs, t, rfl⟩ := (headIsDict_iff _).mp hd
    simp only [summaryPart, hd, if_true] at h
    rcases hc : create_summary_table ((Item.dictv kvs :: t).take 5) with e | b <;>
      rw [hc] at h
    · exact absurd h (by simp [Except.map])
    · simp [Except.map] at h
      obtain rfl := h.symm
      have ht : (Item.dictv kvs :: t).take 5 = Item.dictv kvs :: t.take 4 := rfl
      obtain ⟨rows, rfl, hbr⟩ := create_summary_table_ok_table kvs (t.take 4) b (ht ▸ hc)
      refine ⟨by simp, by simp, by simp, by simp [hd], ?_⟩
      intro rows' hmem
      simp at hmem
      subst hmem
      rfl
  · have hd' : headIsDict d1 = false := by simpa using hd
    rw [summaryPart_false _ _ _ hd'] at h
    simp at h
    obtain rfl := h.symm
    exact ⟨rfl, rfl, rfl, by simp [hd', countTables_nil], by simp⟩

theorem summaryPart_ok_of_tableSafe (sub : ParaStyle) (dp : Nat) (d1 : List Item)
    (h : tableSafe d1 = true) : ∃ sp, summaryPart sub dp d1 = .ok sp := by
  by_cases hd : headIsDict d1 = true
  · have hall : (d1.take 5).all Item.isDict = true := by
      simpa [tableSafe, hd] using h
    obtain ⟨kvs, t, rfl⟩ := (headIsDict_iff _).mp hd
    obtain ⟨rs, hrs⟩ :=
      buildRows_ok_of_all_dicts ((kvs.map Prod.fst).take 3)
        ((Item.dictv kvs :: t).take 5) hall
    have hcst : create_summary_table ((Item.dictv kvs :: t).take 5) =
        (buildRows ((kvs.map Prod.fst).take 3) ((Item.dictv kvs :: t).take 5)).map
          (fun rows => Block.table (((kvs.map Prod.fst).take 3) :: rows)) := by
      rw [show (Item.dictv kvs :: t).take 5 = Item.dictv kvs :: t.take 4 from rfl,
        create_summary_table_dictv]
      simp [List.take_succ_cons, List.take_take]
    refine ⟨([Block.paragraph "1.3 Summary Table" sub,
              Block.table (((kvs.map Prod.fst).take 3) :: rs)],
             [TocEntry.mk 1 "1.3 Summary Table" dp]), ?_⟩
    simp only [summaryPart, hd, if_true]
    rw [hcst, hrs]
    rfl
  · exact ⟨([], []), summaryPart_false _ _ _ (by simpa using hd)⟩

@[simp] theorem hcn_12_22 : headCharNe "1.2." "2.2." = true := by decide

@[simp] theorem hcn_12_32 : headCharNe "1.2." "3.2." = true := by decide

@[simp] theorem hcn_22_12 : headCharNe "2.2." "1.2." = true := by decide

@[simp] theorem hcn_22_32 : headCharNe "2.2." "3.2." = true := by decide

@[simp] theorem hcn_32_12 : headCharNe "3.2." "1.2." = true := by decide

@[simp] theorem hcn_32_22 : headCharNe "3.2." "2.2." = true := by decide

theorem table_not_mem_flatMap (rows : List (List String)) (q n : String)
    (body sub : ParaStyle) (m : List (Nat × Item)) :
    Block.table rows ∉ m.flatMap (itemTriple q n body sub) := by
  induction m with
  | nil => simp
  | cons a as ih => simp [itemTriple, ih]

@[simp] theorem table_not_mem_itemBlocks (rows : List (List String)) (q n : String)
    (body sub : ParaStyle) (l : List Item) :
    Block.table rows ∉ itemBlocks q n body sub l := by
  rw [itemBlocks]
  exact table_not_mem_flatMap rows q n body sub _

theorem storyShape_spec (sumBlocks : List Block) (d1 d2 d3 : List Item)
    (hs1 : countItems "1.2." sumBlocks = 0) (hs2 : countItems "2.2." sumBlocks = 0)
    (hs3 : countItems "3.2." sumBlocks = 0) :
    countItems "1.2." (storyShape customTitleStyle sectionTitleStyle
        subSectionTitleStyle customBodyStyle sumBlocks d1 d2 d3) = min 5 d1.length ∧
    countItems "2.2." (storyShape customTitleStyle sectionTitleStyle
        subSectionTitleStyle customBodyStyle sumBlocks d1 d2 d3) = min 5 d2.length ∧
    countItems "3.2." (storyShape customTitleStyle sectionTitleStyle
        subSectionTitleStyle customBodyStyle sumBlocks d1 d2 d3) = min 5 d3.length ∧
    countTables (storyShape customTitleStyle sectionTitleStyle
        subSectionTitleStyle customBodyStyle sumBlocks d1 d2 d3) = countTables sumBlocks ∧
    (∀ rows, Block.table rows ∈ storyShape customTitleStyle sectionTitleStyle
        subSectionTitleStyle customBodyStyle sumBlocks d1 d2 d3 →
      Block.table rows ∈ sumBlocks) ∧
    Block.paragraph ("This is the first data set received by the API. It contains "
        ++ toString d1.length ++ " records.") customBodyStyle ∈
      storyShape customTitleStyle sectionTitleStyle subSectionTitleStyle
        customBodyStyle sumBlocks d1 d2 d3 ∧
    Block.paragraph ("The second set contains " ++ toString d2.length
        ++ " elements for analysis.") customBodyStyle ∈
      storyShape customTitleStyle sectionTitleStyle subSectionTitleStyle
        customBodyStyle sumBlocks d1 d2 d3 ∧
    Block.paragraph ("This final set has " ++ toString d3.length
        ++ " processed items.") customBodyStyle ∈
      storyShape customTitleStyle sectionTitleStyle subSectionTitleStyle
        customBodyStyle sumBlocks d1 d2 d3 := by
  refine ⟨?_, ?_, ?_, ?_, ?_, ?_, ?_, ?_⟩
  · simp [storyShape, countItems_itemBlocks_self, countItems_itemBlocks_other, hs1]
  · simp [storyShape, countItems_itemBlocks_self, countItems_itemBlocks_other, hs2]
  · simp [storyShape, countItems_itemBlocks_self, countItems_itemBlocks_other, hs3]
  · simp [storyShape, countTables_itemBlocks]
  · intro rows hmem
    simp [storyShape] at hmem
    exact hmem
  · simp [storyShape]
  · simp [storyShape]
  · simp [storyShape]

theorem generate_pdf_ok_extract (d1 d2 d3 : List Item) (fn fn' : String) (doc : Document)
    (h : (pdf_gen.generate_pdf d1 d2 d3 fn).2 = .ok (doc, fn')) :
    fn' = fn ∧ ∃ sp, summaryPart subSectionTitleStyle docPageInit d1 = .ok sp ∧
      doc.story = storyShape customTitleStyle sectionTitleStyle subSectionTitleStyle
        customBodyStyle sp.1 d1 d2 d3 ∧
      doc.entries = entriesShape docPageInit sp.2 d1 d2 d3 ∧
      doc.pages = renderPages ((layoutPages doc.story).map (List.map PageOp.content)) := by
  rw [show (pdf_gen.generate_pdf d1 d2 d3 fn).2
      = (pdf_gen.buildDocument d1 d2 d3).map (fun doc => (doc, fn)) from rfl] at h
  rw [show pdf_gen.buildDocument d1 d2 d3
      = (buildDocumentParts customTitleStyle sectionTitleStyle subSectionTitleStyle
          customBodyStyle docPageInit d1 d2 d3).map (fun parts =>
        ({ story := parts.1, entries := parts.2,
           pages := renderPages ((layoutPages parts.1).map (List.map PageOp.content)) }
          : Document)) from rfl] at h
  rw [buildDocumentParts] at h
  rcases hsp : summaryPart subSectionTitleStyle docPageInit d1 with e | sp <;> rw [hsp] at h
  · exact absurd h (by simp [Except.map])
  · simp [Except.map] at h
    obtain ⟨hdoc, hfn⟩ := h
    obtain rfl := hdoc.symm
    refine ⟨hfn.symm, sp, rfl, ?_, ?_, ?_⟩
    · rfl
    · rfl
    · rfl

theorem generate_pdf_ok_spec (d1 d2 d3 : List Item) (fn fn' : String) (doc : Document)
    (h : (pdf_gen.generate_pdf d1 d2 d3 fn).2 = .ok (doc, fn')) :
    fn' = fn ∧
    countItems "1.2." doc.story = min 5 d1.length ∧
    countItems "2.2." doc.story = min 5 d2.length ∧
    countItems "3.2." doc.story = min 5 d3.length ∧
    countTables doc.story = (if headIsDict d1 then 1 else 0) ∧
    (∀ rows, Block.table rows ∈ doc.story →
      create_summary_table (d1.take 5) = .ok (.table rows)) ∧
    Block.paragraph ("This is the first data set received by the API. It contains "
        ++ toString d1.length ++ " records.") customBodyStyle ∈ doc.story ∧
    Block.paragraph ("The second set contains " ++ toString d2.length
        ++ " elements for analysis.") customBodyStyle ∈ doc.story ∧
    Block.paragraph ("This final set has " ++ toString d3.length
        ++ " processed items.") customBodyStyle ∈ doc.story ∧
    doc.pages = renderPages ((layoutPages doc.story).map (List.map PageOp.content)) := by
  obtain ⟨hfn, sp, hsp, hstory, hentries, hpages⟩ :=
    generate_pdf_ok_extract d1 d2 d3 fn fn' doc h
  obtain ⟨s1, s2, s3, stbl, smem⟩ := summaryPart_ok_spec docPageInit d1 sp hsp
  obtain ⟨c1, c2, c3, ctbl, cmem, m1, m2, m3⟩ := storyShape_spec sp.1 d1 d2 d3 s1 s2 s3
  rw [hstory]
  exact ⟨hfn, c1, c2, c3, by rw [ctbl, stbl], fun rows hr => smem rows (cmem rows hr),
    m1, m2, m3, hstory ▸ hpages⟩

theorem generate_pdf_ok_of_tableSafe (d1 d2 d3 : List Item) (fn : String)
    (h : tableSafe d1 = true) :
    ∃ doc, (pdf_gen.generate_pdf d1 d2 d3 fn).2 = .ok (doc, fn) := by
  obtain ⟨sp, hsp⟩ := summaryPart_ok_of_tableSafe subSectionTitleStyle docPageInit d1 h
  refine ⟨{ story := storyShape customTitleStyle sectionTitleStyle subSectionTitleStyle
              customBodyStyle sp.1 d1 d2 d3,
            entries := entriesShape docPageInit sp.2 d1 d2 d3,
            pages := renderPages ((layoutPages (storyShape customTitleStyle sectionTitleStyle
              subSectionTitleStyle customBodyStyle sp.1 d1 d2 d3)).map
                (List.map PageOp.content)) }, ?_⟩
  rw [show (pdf_gen.generate_pdf d1 d2 d3 fn).2
      = (pdf_gen.buildDocument d1 d2 d3).map (fun doc => (doc, fn)) from rfl]
  rw [show pdf_gen.buildDocument d1 d2 d3
      = (buildDocumentParts customTitleStyle sectionTitleStyle subSectionTitleStyle
          customBodyStyle docPageInit d1 d2 d3).map (fun parts =>
        ({ story := parts.1, entries := parts.2,
           pages := renderPages ((layoutPages parts.1).map (List.map PageOp.content)) }
          : Document)) from rfl]
  rw [buildDocumentParts, hsp]
  rfl

theorem enumF_length (k : Nat) (l : List α) : (enumF k l).length = l.length := by
  induction l generalizing k with
  | nil => rfl
  | cons a as ih => simp [enumF, ih]

theorem enumF_getElem? (k : Nat) (l : List α) (i : Nat) :
    (enumF k l)[i]? = l[i]?.map (fun a => (k + i, a)) := by
  induction l generalizing k i with
  | nil => simp [enumF]
  | cons a as ih =>
      cases i with
      | zero => simp [enumF]
      | succ j =>
          simp only [enumF, List.getElem?_cons_succ, ih]
          cases as[j]?
          · simp
          · simp
            omega

theorem runPages_spec (l : List (List PageOp)) (n : Nat)
    (saved : List (Nat × List PageOp)) :
    runPages ⟨n, [], saved⟩ l = ⟨n + l.length, [], saved ++ enumF n l⟩ := by
  induction l generalizing n saved with
  | nil => simp [runPages, enumF]
  | cons pg rest ih =>
      rw [runPages]
      rw [show ((⟨n, [], saved⟩ : NCanvas).drawPage pg).showPage
          = (⟨n + 1, [], saved ++ [(n, pg)]⟩ : NCanvas) from by
        simp [NCanvas.drawPage, NCanvas.showPage]]
      rw [ih]
      simp only [NCanvas.mk.injEq, enumF, List.length_cons]
      refine ⟨by omega, trivial, by simp⟩

theorem renderPages_eq (pages : List (List PageOp)) :
    renderPages pages = (enumF 1 pages).map
      (fun p => p.2 ++ [PageOp.text (stampText p.1 pages.length)]) := by
  rw [renderPages, show NCanvas.start = (⟨1, [], []⟩ : NCanvas) from rfl, runPages_spec]
  simp [NCanvas.save, enumF_length]

theorem renderPages_length (pages : List (List PageOp)) :
    (renderPages pages).length = pages.length := by
  rw [renderPages_eq]
  simp [enumF_length]

theorem renderPages_getElem? (pages : List (List PageOp)) (i : Nat) :
    (renderPages pages)[i]? = pages[i]?.map
      (fun pg => pg ++ [PageOp.text (stampText (i + 1) pages.length)]) := by
  rw [renderPages_eq, List.getElem?_map, enumF_getElem?]
  cases pages[i]? <;> simp [Nat.add_comm]

/-- C3: in the final rendered document, whose page count `N` is
`(renderPages pages).length`, every physical page `i + 1` (for every
index `i` below the page count, so including the first page with the
cover and the index) carries the literal stamp `"Page i+1 of N"`, and
that `N` equals the number of laid-out pages. -/
theorem c3_page_number_stamps (pages : List (List PageOp)) (i : Nat)
    (h : i < pages.length) :
    (renderPages pages).length = pages.length ∧
    PageOp.text (stampText (i + 1) (renderPages pages).length) ∈
      (renderPages pages).getD i [] := by
  refine ⟨renderPages_length pages, ?_⟩
  have h2 : (renderPages pages).getD i [] =
      pages.getD i [] ++ [PageOp.text (stampText (i + 1) pages.length)] := by
    rw [List.getD_eq_getElem?_getD, List.getD_eq_getElem?_getD, renderPages_getElem?,
      List.getElem?_eq_getElem h]
    simp
  rw [renderPages_length, h2]
  simp

/-- C3 witness: a two-page document is stamped "Page 1 of 2" on its
first page, and the rendered page count is 2. -/
theorem c3_witness :
    (0 : Nat) < ([[PageOp.content Block.tocBlock], []] : List (List PageOp)).length ∧
    ((renderPages [[PageOp.content Block.tocBlock], []]).length =
        ([[PageOp.content Block.tocBlock], []] : List (List PageOp)).length ∧
      PageOp.text (stampText (0 + 1) (renderPages [[PageOp.content Block.tocBlock], []]).length) ∈
        (renderPages [[PageOp.content Block.tocBlock], []]).getD 0 []) :=
  ⟨by decide, c3_page_number_stamps [[PageOp.content Block.tocBlock], []] 0 (by decide)⟩

/-- C8: the page-number decorator changes nothing on any page except
appending the page-number stamp: the rendered document has exactly the
laid-out pages (same count), and page `i` is the laid-out page `i`
followed by exactly the one stamp operation — so it applies to every
page, the cover and index pages included. -/
theorem c8_decorator_frame (pages : List (List PageOp)) :
    (renderPages pages).length = pages.length ∧
    ∀ i : Nat, (renderPages pages)[i]? =
      pages[i]?.map (fun pg => pg ++ [PageOp.text (stampText (i + 1) pages.length)]) :=
  ⟨renderPages_length pages, fun i => renderPages_getElem? pages i⟩

/-- C9: `generate_pdf` never mutates the `PDFGenerator` it is called on
(the returned instance is the argument), so repeated calls on the shared
module-level `pdf_gen` instance with the same datasets return identical
results, and the shared instance is unchanged. -/
theorem c9_generator_not_mutated (g : PDFGenerator) (d1 d2 d3 : List Item) (fn : String) :
    (g.generate_pdf d1 d2 d3 fn).1 = g ∧
    (g.generate_pdf d1 d2 d3 fn).1.generate_pdf d1 d2 d3 fn = g.generate_pdf d1 d2 d3 fn ∧
    (pdf_gen.generate_pdf d1 d2 d3 fn).1 = pdf_gen :=
  ⟨rfl, rfl, rfl⟩

/-- C7: generation is deterministic with respect to the datasets: two
requests with the same body but different timestamps produce responses
that agree on everything except the generated filename — in particular
the page counts and the recorded index target pages coincide (the
timestamp reaches only the filename). -/
theorem c7_layout_deterministic (t1 t2 : String) (body : Option ApiRequest) :
    stripFilename (generate_pdf_api t1 body) = stripFilename (generate_pdf_api t2 body) ∧
    pageCountOf (generate_pdf_api t1 body) = pageCountOf (generate_pdf_api t2 body) ∧
    entriesOf (generate_pdf_api t1 body) = entriesOf (generate_pdf_api t2 body) := by
  rcases body with _ | data
  · exact ⟨rfl, rfl, rfl⟩
  · by_cases h1 : data.isEmptyJson = true
    · simp [generate_pdf_api, h1]
    · have h1' : data.isEmptyJson = false := by simpa using h1
      by_cases h2 : ((data.dataset1.getD []).isEmpty && (data.dataset2.getD []).isEmpty
          && (data.dataset3.getD []).isEmpty) = true
      · simp [generate_pdf_api, h1', h2]
      · have h2' : ((data.dataset1.getD []).isEmpty && (data.dataset2.getD []).isEmpty
            && (data.dataset3.getD []).isEmpty) = false := by simpa using h2
        rcases hb : pdf_gen.buildDocument (data.dataset1.getD [])
            (data.dataset2.getD []) (data.dataset3.getD []) with e | doc <;>
          simp [generate_pdf_api, h1', h2', PDFGenerator.generate_pdf, hb, Except.map,
            stripFilename, pageCountOf, entriesOf]

/-- C4: each dataset yields `min 5 n` per-item subsection blocks in its
section of the generated story (so a dataset with more than 5 items
yields exactly 5), while the summary prose of each section reports the
true item count of the dataset. -/
theorem c4_items_capped (d1 d2 d3 : List Item) (fn fn' : String) (doc : Document)
    (h : (pdf_gen.generate_pdf d1 d2 d3 fn).2 = .ok (doc, fn')) :
    countItems "1.2." doc.story = min 5 d1.length ∧
    countItems "2.2." doc.story = min 5 d2.length ∧
    countItems "3.2." doc.story = min 5 d3.length ∧
    Block.paragraph ("This is the first data set received by the API. It contains "
        ++ toString d1.length ++ " records.") customBodyStyle ∈ doc.story ∧
    Block.paragraph ("The second set contains " ++ toString d2.length
        ++ " elements for analysis.") customBodyStyle ∈ doc.story ∧
    Block.paragraph ("This final set has " ++ toString d3.length
        ++ " processed items.") customBodyStyle ∈ doc.story := by
  obtain ⟨_, c1, c2, c3, _, _, m1, m2, m3, _⟩ := generate_pdf_ok_spec d1 d2 d3 fn fn' doc h
  exact ⟨c1, c2, c3, m1, m2, m3⟩

/-- C4 witness: a six-item dataset1 yields `min 5 6 = 5` item blocks and
its overview prose reports 6 records. -/
theorem c4_witness :
    countItems "1.2." c4Doc.story =
      min 5 (List.length [Item.strv "i1", Item.strv "i2", Item.strv "i3",
        Item.strv "i4", Item.strv "i5", Item.strv "i6"]) ∧
    countItems "2.2." c4Doc.story = min 5 (List.length ([] : List Item)) ∧
    countItems "3.2." c4Doc.story = min 5 (List.length [Item.strv "z"]) ∧
    Block.paragraph ("This is the first data set received by the API. It contains "
        ++ toString (List.length [Item.strv "i1", Item.strv "i2", Item.strv "i3",
          Item.strv "i4", Item.strv "i5", Item.strv "i6"]) ++ " records.")
      customBodyStyle ∈ c4Doc.story ∧
    Block.paragraph ("The second set contains " ++ toString (List.length ([] : List Item))
        ++ " elements for analysis.") customBodyStyle ∈ c4Doc.story ∧
    Block.paragraph ("This final set has " ++ toString (List.length [Item.strv "z"])
        ++ " processed items.") customBodyStyle ∈ c4Doc.story :=
  c4_items_capped [Item.strv "i1", Item.strv "i2", Item.strv "i3", Item.strv "i4",
    Item.strv "i5", Item.strv "i6"] [] [Item.strv "z"] "f" "f" c4Doc rfl

/-- C2 counterexample: dataset2 consists of a key-value record, yet the
generated document contains no summary table at all (generation
succeeds, and zero table blocks are in the story) — the code only ever
builds a summary table for dataset1. -/
theorem c2_counterexample :
    storyOf (pdf_gen.generate_pdf [] [Item.dictv [("a", "1")]] [] "f").2 ≠ [] ∧
    countTables (storyOf (pdf_gen.generate_pdf [] [Item.dictv [("a", "1")]] [] "f").2) = 0 := by
  constructor
  · decide
  · decide

/-- C2 amended: only dataset1 can receive a summary table: the story of
a successfully generated document contains a table block exactly when
dataset1 starts with a dict-like record, and any table present is built
from the first five records of dataset1, with the header row the first
record's keys capped at 3 columns, `min 5 |dataset1|` data rows, each
data row holding `min 3 k` cells of at most 30 characters. -/
theorem c2_summary_table_dataset1_only (d1 d2 d3 : List Item) (fn fn' : String)
    (doc : Document) (h : (pdf_gen.generate_pdf d1 d2 d3 fn).2 = .ok (doc, fn')) :
    countTables doc.story = (if headIsDict d1 then 1 else 0) ∧
    ∀ rows, Block.table rows ∈ doc.story →
      ∃ kvs t, d1 = Item.dictv kvs :: t ∧
        rows.head? = some ((kvs.map Prod.fst).take 3) ∧
        rows.length = 1 + min 5 d1.length ∧
        ∀ r ∈ rows.tail, r.length = min 3 kvs.length ∧ ∀ c ∈ r, c.length ≤ 30 := by
  obtain ⟨_, _, _, _, ctbl, corigin, _⟩ := generate_pdf_ok_spec d1 d2 d3 fn fn' doc h
  refine ⟨ctbl, ?_⟩
  intro rows hmem
  have hcst := corigin rows hmem
  rcases d1 with _ | ⟨it, t⟩
  · simp [create_summary_table] at hcst
  · rcases it with s | kvs
    · rw [show (Item.strv s :: t).take 5 = Item.strv s :: t.take 4 from rfl] at hcst
      simp [create_summary_table] at hcst
    · have hcst' : create_summary_table (Item.dictv kvs :: t.take 4) =
          .ok (Block.table rows) := by
        rw [show Item.dictv kvs :: t.take 4 = (Item.dictv kvs :: t).take 5 from rfl]
        exact hcst
      obtain ⟨rows0, hb, hbr⟩ :=
        create_summary_table_ok_table kvs (t.take 4) (Block.table rows) hcst'
      injection hb with hb2
      subst hb2
      obtain ⟨hlen, hrows⟩ :=
        buildRows_ok_spec ((kvs.map Prod.fst).take 3) _ rows0 hbr
      refine ⟨kvs, t, rfl, by simp, ?_, ?_⟩
      · rw [List.length_cons, hlen]
        simp [List.length_take]
        omega
      · intro r hr
        have hspec := hrows r (by simpa using hr)
        refine ⟨?_, hspec.2⟩
        rw [hspec.1]
        simp [List.length_take]

/-- C2 witness: a one-record dict dataset1 produces exactly one summary
table. -/
theorem c2_witness :
    ((pdf_gen.generate_pdf [Item.dictv [("a", "1")]] [] [] "f").2 = .ok (c2Doc, "f")) ∧
    countTables c2Doc.story = (if headIsDict [Item.dictv [("a", "1")]] then 1 else 0) :=
  ⟨rfl, (c2_summary_table_dataset1_only [Item.dictv [("a", "1")]] [] [] "f" "f" c2Doc rfl).1⟩

/-- C5 counterexample: a first record whose key is 31 characters long
yields a rendered table whose header cell is the untruncated 31-character
key, refuting "every cell's text has length at most 30 characters" (only
data cells are truncated). -/
theorem c5_counterexample :
    create_summary_table [Item.dictv [("abcdefghijklmnopqrstuvwxyz01234", "v")]] =
      .ok (Block.table [["abcdefghijklmnopqrstuvwxyz01234"], ["v"]]) ∧
    (30 : Nat) < "abcdefghijklmnopqrstuvwxyz01234".length := by
  constructor
  · rfl
  · decide

/-- C5 amended: for a non-empty list of dict-like records whose first
record has `k` keys, the rendered table has a header row of the first
record's keys capped at `min 3 k` columns and `min 5 r` data rows, each
data row holding `min 3 k` cells, and every DATA cell's text has length
at most 30 characters (header cells are the raw, untruncated keys). -/
theorem c5_table_caps (kvs : List (String × String)) (rest : List Item)
    (hall : ∀ it ∈ rest, it.isDict = true) :
    ∃ rows, create_summary_table (Item.dictv kvs :: rest) =
        .ok (Block.table (((kvs.map Prod.fst).take 3) :: rows)) ∧
      ((kvs.map Prod.fst).take 3).length = min 3 kvs.length ∧
      rows.length = min 5 (Item.dictv kvs :: rest).length ∧
      (∀ r ∈ rows, r.length = min 3 kvs.length) ∧
      (∀ r ∈ rows, ∀ c ∈ r, c.length ≤ 30) := by
  have halls : ((Item.dictv kvs :: rest).take 5).all Item.isDict = true := by
    rw [List.all_eq_true]
    intro it hit
    have hsub : it ∈ Item.dictv kvs :: rest := List.take_subset 5 _ hit
    rcases List.mem_cons.mp hsub with h | h
    · subst h; rfl
    · exact hall it h
  obtain ⟨rows, hrows⟩ :=
    buildRows_ok_of_all_dicts ((kvs.map Prod.fst).take 3)
      ((Item.dictv kvs :: rest).take 5) halls
  obtain ⟨hlen, hspec⟩ := buildRows_ok_spec _ _ _ hrows
  refine ⟨rows, ?_, ?_, ?_, ?_, ?_⟩
  · rw [create_summary_table_dictv, hrows]
    rfl
  · simp [List.length_take]
  · rw [hlen, List.length_take]
  · intro r hr
    rw [(hspec r hr).1]
    simp [List.length_take]
  · exact fun r hr => (hspec r hr).2

/-- C5 witness: four keys and two records give 3 columns and 2 rows with
every data cell within 30 characters. -/
theorem c5_witness :
    (∀ it ∈ [Item.dictv [("a", "<<a-quite-long-field-value-exceeding-thirty>>")]],
      it.isDict = true) ∧
    (∃ rows, create_summary_table (Item.dictv [("a", "x"), ("b", "y"), ("c", "z"), ("d", "w")]
          :: [Item.dictv [("a", "<<a-quite-long-field-value-exceeding-thirty>>")]]) =
        .ok (Block.table ((([("a", "x"), ("b", "y"), ("c", "z"), ("d", "w")].map Prod.fst).take 3)
          :: rows)) ∧
      ((([("a", "x"), ("b", "y"), ("c", "z"), ("d", "w")].map Prod.fst).take 3)).length =
        min 3 ([("a", "x"), ("b", "y"), ("c", "z"), ("d", "w")] :
          List (String × String)).length ∧
      rows.length = min 5 (Item.dictv [("a", "x"), ("b", "y"), ("c", "z"), ("d", "w")]
          :: [Item.dictv [("a", "<<a-quite-long-field-value-exceeding-thirty>>")]]).length ∧
      (∀ r ∈ rows, r.length = min 3 ([("a", "x"), ("b", "y"), ("c", "z"), ("d", "w")] :
          List (String × String)).length) ∧
      (∀ r ∈ rows, ∀ c ∈ r, c.length ≤ 30)) :=
  ⟨by decide, c5_table_caps [("a", "x"), ("b", "y"), ("c", "z"), ("d", "w")]
    [Item.dictv [("a", "<<a-quite-long-field-value-exceeding-thirty>>")]] (by decide)⟩

/-- C10: whether a summary table appears is decided solely by the first
element of dataset1 — if dataset1 is empty or starts with a non-dict,
the successfully generated story has no table block even when later
elements (or other datasets) are dicts; and inside a table row, a record
lacking one of the chosen keys renders the empty string in that cell. -/
theorem c10_table_gating (d1 d2 d3 : List Item) (fn fn' : String) (doc : Document)
    (h1 : headIsDict d1 = false)
    (h2 : (pdf_gen.generate_pdf d1 d2 d3 fn).2 = .ok (doc, fn')) :
    countTables doc.story = 0 ∧
    (∀ headers kvs, rowOf headers (Item.dictv kvs) =
        .ok (headers.map (fun hk => truncTo 30 (dictGet kvs hk)))) ∧
    (∀ kvs hk, (∀ p ∈ kvs, p.1 ≠ hk) → truncTo 30 (dictGet kvs hk) = "") := by
  obtain ⟨_, _, _, _, ctbl, _⟩ := generate_pdf_ok_spec d1 d2 d3 fn fn' doc h2
  refine ⟨by simp [ctbl, h1], fun headers kvs => rowOf_dictv headers kvs, ?_⟩
  intro kvs hk hnone
  have hf : kvs.find? (fun p => p.1 == hk) = none := by
    rw [List.find?_eq_none]
    intro p hp
    simp [hnone p hp]
  have hg : dictGet kvs hk = "" := by simp [dictGet, hf]
  rw [hg]
  decide

/-- C10 witness: dataset1 starting with a string leaves the document
table-free although a later element is a dict; and a record lacking the
key renders the empty cell. -/
theorem c10_witness :
    headIsDict [Item.strv "s", Item.dictv [("a", "1")]] = false ∧
    ((pdf_gen.generate_pdf [Item.strv "s", Item.dictv [("a", "1")]] [] [] "f").2 =
      .ok (c10Doc, "f")) ∧
    countTables c10Doc.story = 0 ∧
    truncTo 30 (dictGet [("x", "1")] "missing") = "" :=
  ⟨by decide, rfl,
   (c10_table_gating [Item.strv "s", Item.dictv [("a", "1")]] [] [] "f" "f" c10Doc
      (by decide) rfl).1,
   (c10_table_gating [Item.strv "s", Item.dictv [("a", "1")]] [] [] "f" "f" c10Doc
      (by decide) rfl).2.2 [("x", "1")] "missing" (by decide)⟩

/-- C6 counterexample: a request with exactly one non-empty dataset
(dataset1 = one dict record followed by a string) is answered with a 500
internal error, not 200 — the summary-table row loop calls `.get` on the
string item and raises. -/
theorem c6_counterexample :
    generate_pdf_api "T" (bodyWith1 [Item.dictv [("a", "1")], Item.strv "s"]) =
      ApiResponse.serverError := by
  rfl

/-- C6 amended: the endpoint answers 400 exactly when all three
effective datasets are absent or empty; a request with exactly one
non-empty dataset is answered 200 with a PDF whose other two sections
report a record count of 0 and contain no item subsection blocks —
provided, when the non-empty dataset is dataset1, that it cannot make
the summary-table row loop raise (first item not a dict, or the first
five items all dicts); in the remaining case the endpoint answers 500,
as the counterexample shows. -/
theorem c6_validation_and_single_dataset :
    (∀ now body, is400 (generate_pdf_api now body) = true ↔
        ((effDatasets body).1 = [] ∧ (effDatasets body).2.1 = [] ∧
         (effDatasets body).2.2 = [])) ∧
    (∀ now ds, ds ≠ [] → tableSafe ds = true →
      ∃ doc, generate_pdf_api now (bodyWith1 ds) =
          .pdfFile ("poc_document_" ++ now ++ ".pdf") doc ∧
        countItems "2.2." doc.story = 0 ∧ countItems "3.2." doc.story = 0 ∧
        Block.paragraph "The second set contains 0 elements for analysis."
          customBodyStyle ∈ doc.story ∧
        Block.paragraph "This final set has 0 processed items."
          customBodyStyle ∈ doc.story) ∧
    (∀ now ds, ds ≠ [] →
      ∃ doc, generate_pdf_api now (bodyWith2 ds) =
          .pdfFile ("poc_document_" ++ now ++ ".pdf") doc ∧
        countItems "1.2." doc.story = 0 ∧ countItems "3.2." doc.story = 0 ∧
        countTables doc.story = 0 ∧
        Block.paragraph
            "This is the first data set received by the API. It contains 0 records."
          customBodyStyle ∈ doc.story ∧
        Block.paragraph "This final set has 0 processed items."
          customBodyStyle ∈ doc.story) ∧
    (∀ now ds, ds ≠ [] →
      ∃ doc, generate_pdf_api now (bodyWith3 ds) =
          .pdfFile ("poc_document_" ++ now ++ ".pdf") doc ∧
        countItems "1.2." doc.story = 0 ∧ countItems "2.2." doc.story = 0 ∧
        countTables doc.story = 0 ∧
        Block.paragraph
            "This is the first data set received by the API. It contains 0 records."
          customBodyStyle ∈ doc.story ∧
        Block.paragraph "The second set contains 0 elements for analysis."
          customBodyStyle ∈ doc.story) := by
  refine ⟨?_, ?_, ?_, ?_⟩
  · intro now body
    rcases body with _ | data
    · simp [generate_pdf_api, is400, effDatasets]
    · by_cases hej : data.isEmptyJson = true
      · have h1 : data.dataset1 = none ∧ data.dataset2 = none ∧ data.dataset3 = none ∧
            data.extraKeys = false := by
          simpa [ApiRequest.isEmptyJson, Option.isNone_iff_eq_none,
            Bool.and_eq_true, and_assoc] using hej
        simp [generate_pdf_api, hej, is400, effDatasets, h1.1, h1.2.1, h1.2.2.1]
      · have hej' : data.isEmptyJson = false := by simpa using hej
        by_cases hemp : ((data.dataset1.getD []).isEmpty && (data.dataset2.getD []).isEmpty
            && (data.dataset3.getD []).isEmpty) = true
        · have he : (data.dataset1.getD []) = [] ∧ (data.dataset2.getD []) = [] ∧
              (data.dataset3.getD []) = [] := by
            simpa [Bool.and_eq_true, List.isEmpty_iff, and_assoc] using hemp
          simp [generate_pdf_api, hej', hemp, is400, effDatasets, he.1, he.2.1, he.2.2]
        · have hemp' : ((data.dataset1.getD []).isEmpty && (data.dataset2.getD []).isEmpty
              && (data.dataset3.getD []).isEmpty) = false := by simpa using hemp
          have hne2 : ¬((data.dataset1.getD []) = [] ∧ (data.dataset2.getD []) = [] ∧
              (data.dataset3.getD []) = []) := by
            simpa [Bool.and_eq_true, List.isEmpty_iff, and_assoc] using hemp
          rcases hb : pdf_gen.buildDocument (data.dataset1.getD [])
              (data.dataset2.getD []) (data.dataset3.getD []) with e | doc <;>
            simp [generate_pdf_api, hej', hemp', PDFGenerator.generate_pdf, hb,
              Except.map, is400, effDatasets, hne2]
  · intro now ds hne hsafe
    obtain ⟨doc, hdoc⟩ :=
      generate_pdf_ok_of_tableSafe ds [] [] ("poc_document_" ++ now ++ ".pdf") hsafe
    have hise : ds.isEmpty = false := by simp [List.isEmpty_iff, hne]
    obtain ⟨_, _, c2, c3, _, _, _, m2, m3, _⟩ :=
      generate_pdf_ok_spec ds [] [] _ _ doc hdoc
    have hm2 : ("The second set contains " ++ toString (List.length ([] : List Item))
        ++ " elements for analysis.") =
        "The second set contains 0 elements for analysis." := by decide
    have hm3 : ("This final set has " ++ toString (List.length ([] : List Item))
        ++ " processed items.") = "This final set has 0 processed items." := by decide
    refine ⟨doc, ?_, by simpa using c2, by simpa using c3, hm2 ▸ m2, hm3 ▸ m3⟩
    simp [generate_pdf_api, bodyWith1, ApiRequest.isEmptyJson, hise, hdoc]
  · intro now ds hne
    obtain ⟨doc, hdoc⟩ :=
      generate_pdf_ok_of_tableSafe [] ds [] ("poc_document_" ++ now ++ ".pdf") (by decide)
    have hise : ds.isEmpty = false := by simp [List.isEmpty_iff, hne]
    obtain ⟨_, c1, _, c3, ctbl, _, m1, _, m3, _⟩ :=
      generate_pdf_ok_spec [] ds [] _ _ doc hdoc
    have hm1 : ("This is the first data set received by the API. It contains "
        ++ toString (List.length ([] : List Item)) ++ " records.") =
        "This is the first data set received by the API. It contains 0 records." := by
      decide
    have hm3 : ("This final set has " ++ toString (List.length ([] : List Item))
        ++ " processed items.") = "This final set has 0 processed items." := by decide
    refine ⟨doc, ?_, by simpa using c1, by simpa using c3, by simpa using ctbl,
      hm1 ▸ m1, hm3 ▸ m3⟩
    simp [generate_pdf_api, bodyWith2, ApiRequest.isEmptyJson, hise, hdoc]
  · intro now ds hne
    obtain ⟨doc, hdoc⟩ :=
      generate_pdf_ok_of_tableSafe [] [] ds ("poc_document_" ++ now ++ ".pdf") (by decide)
    have hise : ds.isEmpty = false := by simp [List.isEmpty_iff, hne]
    obtain ⟨_, c1, c2, _, ctbl, _, m1, m2, _, _⟩ :=
      generate_pdf_ok_spec [] [] ds _ _ doc hdoc
    have hm1 : ("This is the first data set received by the API. It contains "
        ++ toString (List.length ([] : List Item)) ++ " records.") =
        "This is the first data set received by the API. It contains 0 records." := by
      decide
    have hm2 : ("The second set contains " ++ toString (List.length ([] : List Item))
        ++ " elements for analysis.") =
        "The second set contains 0 elements for analysis." := by decide
    refine ⟨doc, ?_, by simpa using c1, by simpa using c2, by simpa using ctbl,
      hm1 ▸ m1, hm2 ▸ m2⟩
    simp [generate_pdf_api, bodyWith3, ApiRequest.isEmptyJson, hise, hdoc]

/-- C6 witness: a body carrying only a one-string dataset2 is answered
200 with a PDF whose sections 1 and 3 report zero records and hold no
item blocks; and the all-empty body is answered 400. -/
theorem c6_witness :
    (([Item.strv "x"] : List Item) ≠ [] ∧
      is400 (generate_pdf_api "T" (some ⟨some [], some [], some [], false⟩)) = true) ∧
    (∃ doc, generate_pdf_api "T" (bodyWith2 [Item.strv "x"]) =
        .pdfFile ("poc_document_" ++ "T" ++ ".pdf") doc ∧
      countItems "1.2." doc.story = 0 ∧ countItems "3.2." doc.story = 0 ∧
      countTables doc.story = 0 ∧
      Block.paragraph
          "This is the first data set received by the API. It contains 0 records."
        customBodyStyle ∈ doc.story ∧
      Block.paragraph "This final set has 0 processed items."
        customBodyStyle ∈ doc.story) :=
  ⟨⟨by decide, by decide⟩,
   c6_validation_and_single_dataset.2.2.1 "T" [Item.strv "x"] (by decide)⟩

/-- C1: refuted on the code — the `toc.addEntry(level, text, doc.page)`
calls all run at story-assembly time and record the same pre-build page
counter `dp`, whatever its value, while the headings land on distinct
physical pages (the sections are separated by explicit page breaks); so
for the concrete three-string input, for every possible `dp` some index
entry's recorded target page differs from the physical page its heading
occupies when layout reaches it (the section-1 and section-2 headings
sit on pages 2 and 3, and both entries carry the same target `dp`). -/
theorem c1_index_target_pages (dp : Nat) :
    ∃ e, e ∈ partsEntries (c1Parts dp) ∧
      pageOfHeading (layoutPages (partsStory (c1Parts dp))) e.text ≠ some e.page := by
  have hen : partsEntries (c1Parts dp) =
      [⟨0, "1. First Data Set", dp⟩, ⟨1, "1.1 Overview", dp⟩,
       ⟨2, "1.2.1 Item 1", dp⟩,
       ⟨0, "2. Second Data Set", dp⟩, ⟨1, "2.1 Data Analysis", dp⟩,
       ⟨2, "2.2.1 Record 1", dp⟩,
       ⟨0, "3. Third Data Set", dp⟩, ⟨1, "3.1 Additional Information", dp⟩,
       ⟨2, "3.2.1 Element 1", dp⟩,
       ⟨0, "4. Conclusion", dp⟩, ⟨1, "4.1 Statistics", dp⟩] := rfl
  by_cases hdp : dp = 2
  · refine ⟨⟨0, "2. Second Data Set", dp⟩, ?_, ?_⟩
    · rw [hen]
      simp
    · subst hdp
      decide
  · refine ⟨⟨0, "1. First Data Set", dp⟩, ?_, ?_⟩
    · rw [hen]
      simp
    · have hp : pageOfHeading (layoutPages (partsStory (c1Parts dp)))
          (TocEntry.mk 0 "1. First Data Set" dp).text = some 2 := rfl
      rw [hp]
      show (some 2 : Option Nat) ≠ some dp
      simp only [ne_eq, Option.some.injEq]
      omega

/-- C1 witness: the mismatch exhibited at the library's actual pre-build
page value 0. -/
theorem c1_witness :
    ∃ e, e ∈ partsEntries (c1Parts 0) ∧
      pageOfHeading (layoutPages (partsStory (c1Parts 0))) e.text ≠ some e.page :=
  c1_index_target_pages 0
